import Mathlib

/-!
Verification development for the Cryologger Glacier Velocity Measurement
System (GVMS) firmware: the acquisition-to-storage pipeline of
`Software/cryologger_gvms_ola/storeData.ino`, the main loop of the OLA
firmware, and the watchdog / RTC-alarm handling of
`Software/cryologger_gvms_micromod`.

Bytes are modelled as `Nat` (the C `char` type of the Artemis/ARM target is
unsigned, so buffer cells hold values `0..255`); machine arithmetic wraps are
made explicit with `% 256`, `% 2^32` etc. where the source performs a
truncating cast or unsigned subtraction.
-/

set_option autoImplicit false

namespace GVMS

/-! ## Frame parser

`storeData` calls `processUbx(incoming)`, which advances the global
`parseUbxState` through the stages of a UBX frame.  The function itself lives
in a sibling `.ino` file of the OLA firmware that is not part of the sources
given here, so it is modelled from the specification. -/

/-- Stages of the UBX parse state machine, per the spec: sync-byte-1,
sync-byte-2, class, id, length-low, length-high, payload, checksum-byte-1,
checksum-byte-2, plus the two terminal outcomes `frameValid` (checksum
verified) and `syncLost` (byte inconsistent with the current matcher). -/
inductive UbxStage where
  | sync1
  | sync2
  | cls
  | msgId
  | lenLsb
  | lenMsb
  | payload
  | ckA
  | ckB
  | frameValid
  | syncLost
deriving DecidableEq, Repr

/-- Parser state: current stage plus the in-progress frame bookkeeping
(length under assembly, payload count, running Fletcher-8 checksum). -/
structure ParserState where
  stage : UbxStage
  lenLow : Nat
  len : Nat
  cnt : Nat
  ckA : Nat
  ckB : Nat
deriving DecidableEq, Repr

/-- One step of the running UBX Fletcher-8 checksum. -/
def ckUpd (b : Nat) (p : ParserState) : ParserState :=
  { p with ckA := (p.ckA + b) % 256, ckB := (p.ckB + (p.ckA + b) % 256) % 256 }

/-- Modelled from the spec: `processUbx` (FrameParser, spec section 4.1) is in
an OLA firmware file absent from `src/`.  Consumes one byte, advancing the
cursor through sync1 (0xB5), sync2 (0x62), class, id, length-low, length-high,
`length` payload bytes and the two checksum bytes; a byte inconsistent with
the current matcher (wrong sync byte, checksum mismatch) yields `syncLost`;
`frameValid` is reached only on successful checksum verification.  The
checksum covers class, id, the two length bytes and the payload. -/
def processUbx (b : Nat) (p : ParserState) : ParserState :=
  match p.stage with
  | .sync1 => if b = 0xB5 then { p with stage := .sync2 } else { p with stage := .syncLost }
  | .sync2 => if b = 0x62 then { p with stage := .cls, ckA := 0, ckB := 0 }
              else { p with stage := .syncLost }
  | .cls => { ckUpd b p with stage := .msgId }
  | .msgId => { ckUpd b p with stage := .lenLsb }
  | .lenLsb => { ckUpd b p with stage := .lenMsb, lenLow := b }
  | .lenMsb =>
      { ckUpd b p with
        stage := if p.lenLow + 256 * b = 0 then .ckA else .payload,
        len := p.lenLow + 256 * b, cnt := 0 }
  | .payload =>
      { ckUpd b p with
        stage := if p.cnt + 1 = p.len then .ckA else .payload,
        cnt := p.cnt + 1 }
  | .ckA => if b = p.ckA then { p with stage := .ckB } else { p with stage := .syncLost }
  | .ckB => if b = p.ckB then { p with stage := .frameValid } else { p with stage := .syncLost }
  | .frameValid => p
  | .syncLost => p

/-- Fletcher-8 checksum folded over a byte list, from a given running pair. -/
def fletcherFold (init : Nat × Nat) (l : List Nat) : Nat × Nat :=
  l.foldl (fun ab c => ((ab.1 + c) % 256, (ab.2 + (ab.1 + c) % 256) % 256)) init

/-- Checksum of a frame with class `c`, id `i` and payload `p`: it covers the
class, id, both length bytes and the payload. -/
def frameChk (c i : Nat) (p : List Nat) : Nat × Nat :=
  fletcherFold (0, 0) ([c, i, p.length % 256, p.length / 256] ++ p)

/-- A complete, well-formed UBX frame on the wire: the two sync bytes, class,
id, little-endian 16-bit payload length, the payload and the two checksum
bytes. -/
def mkFrame (c i : Nat) (p : List Nat) : List Nat :=
  [0xB5, 0x62, c, i, p.length % 256, p.length / 256] ++ p ++
    [(frameChk c i p).1, (frameChk c i p).2]

/-! ## Staging buffer (`GNSSbuffer`)

`RingBufferN<24576> GNSSbuffer;` — the Arduino `RingBufferN` class is an
external library.  Modelled from the spec: `store_char` on a full buffer
silently drops the byte (spec section 4.2: "when full, `append` accepts as
many bytes as fit"; section 9 design note: "the source's overflow policy for
the staging buffer silently drops excess bytes without an explicit accounting
hook").  `store_char` returns nothing, `read_char` pops the oldest byte,
`available` is the number of buffered bytes.  The buffer is modelled as the
FIFO list of its contents, oldest first. -/

def GNSSbufferCap : Nat := 24576

/-- `GNSSbuffer.store_char(c)`: appends `c` unless the buffer is full, in
which case the byte is dropped with no report to the caller. -/
def ringStoreChar (c : Nat) (g : List Nat) : List Nat :=
  if g.length < GNSSbufferCap then g ++ [c] else g

/-- `storeData.ino` lines 326-330: `for (size_t i = 0; i < UBXpointer; i++)
GNSSbuffer.store_char(UBXbuffer[i]);` — copy the validated frame, byte by
byte, into the staging ring buffer. -/
def copyFrameToGnss (fb : List Nat) (g : List Nat) : List Nat :=
  fb.foldl (fun acc c => ringStoreChar c acc) g

/-! ## RTC set calls and the UBX-NAV-TIMEUTC side channel -/

/-- One `rtc.setTime(hour, minute, seconds, hundredths, day, month, year)`
call, recording the (byte-valued) arguments passed. -/
structure RtcCall where
  hour : Nat
  minute : Nat
  seconds : Nat
  hundredths : Nat
  day : Nat
  month : Nat
  year : Nat
deriving DecidableEq, Repr

/-- The 32-bit `nano` field assembled little-endian from `UBXbuffer[14..17]`
(`storeData.ino` line 304). -/
def nanosOf (ubx : List Nat) : Nat :=
  ubx.getD 14 0 + 256 * ubx.getD 15 0 + 65536 * ubx.getD 16 0 +
    16777216 * ubx.getD 17 0

/-- Lines 299-309: reinterpret the unsigned 32-bit `nano` as `int32_t` (the
union trick) and clamp it to zero when negative. -/
def clampNanos (u : Nat) : Nat :=
  if (if u < 2 ^ 31 then (u : Int) else (u : Int) - 2 ^ 32) < 0 then 0 else u

/-- The `rtc.setTime` argument record built at `storeData.ino` line 311:
`rtc.setTime(UBXbuffer[22], UBXbuffer[23], UBXbuffer[24], centis,
UBXbuffer[21], UBXbuffer[20], rtcYear - 2000)` where
`centis = (uint8_t)(nanos / 10000000)` after the negative clamp.  All
arguments are truncated to `uint8_t` by the call. -/
def mkRtcCall (ubx : List Nat) : RtcCall :=
  { hour := ubx.getD 22 0 % 256
    minute := ubx.getD 23 0 % 256
    seconds := ubx.getD 24 0 % 256
    hundredths := clampNanos (nanosOf ubx) / 10000000 % 256
    day := ubx.getD 21 0 % 256
    month := ubx.getD 20 0 % 256
    year := (((ubx.getD 18 0 + 256 * ubx.getD 19 0 : Int) - 2000) % 256).toNat }

/-- `storeData.ino` lines 289-323: inside the valid-non-ACK branch, a
UBX-NAV-TIMEUTC frame (class 0x01, id 0x21) sets the RTC when
`rtcSyncRequiredFlag` is set and the `validUTC` bit (`UBXbuffer[25] & 0x04`)
is set; on doing so it sets `rtcSyncFlag` and clears `rtcSyncRequiredFlag`.
Arguments: the frame bytes, then the current `rtcSyncRequiredFlag`,
`rtcSyncFlag` and the list of `rtc.setTime` calls issued so far; result is
the updated triple. -/
def timeUtcUpd (ubx : List Nat) (rq rs : Bool) (calls : List RtcCall) :
    Bool × Bool × List RtcCall :=
  if ubx.getD 2 0 = 0x01 then
    if ubx.getD 3 0 = 0x21 then
      if rq then
        if Nat.land (ubx.getD 25 0) 0x04 = 0x04 ∧ rq = true then
          (false, true, calls ++ [mkRtcCall ubx])
        else (rq, rs, calls)
      else (rq, rs, calls)
    else (rq, rs, calls)
  else (rq, rs, calls)

/-! ## The storeData state and byte loop -/

def UBXbufferSize : Nat := 4096
def SDpacket : Nat := 512
def UBX_CLASS_ACK : Nat := 0x05

/-- The mutable state of the OLA `storeData` pipeline: global parser state,
the per-frame `UBXbuffer` (as the list of its first `UBXpointer` bytes), the
freeze flag (the `while (1);` reached on `UBXbuffer` overflow), the staging
`GNSSbuffer`, the SD assembly buffer (`SDbuffer`'s first `SDpointer` bytes),
`lastDataLogSyncTime`, the `maxGNSSbufferAvailable` statistic and the RTC
sync flags / `rtc.setTime` call log. -/
structure OlaState where
  parser : ParserState
  ubx : List Nat
  frozen : Bool
  gnss : List Nat
  sdBuf : List Nat
  lastSync : Nat
  maxAvail : Nat
  rtcSyncRequiredFlag : Bool
  rtcSyncFlag : Bool
  rtcSetCalls : List RtcCall
deriving DecidableEq, Repr

/-- `storeData.ino` lines 156-352, handling of one incoming byte: run
`processUbx`, store the byte in `UBXbuffer`, freeze permanently if the buffer
is full (lines 164-169), on `SYNC_LOST` discard the frame (174-175), on
`FRAME_VALID` either discard an ACK/NACK frame or run the TIMEUTC side
channel and copy the frame into `GNSSbuffer` (177-350).  The debug-only
frame-interval statistics (RAWX/PVT/HPPOSLLH/RELPOSNED `micros()` stamps) and
serial prints have no bearing on the modelled state and are omitted. -/
def step (b : Nat) (s : OlaState) : OlaState :=
  if s.frozen then s
  else
    let p := processUbx b s.parser
    let ubx := s.ubx ++ [b]
    if ubx.length = UBXbufferSize then
      { s with frozen := true, parser := p, ubx := ubx }
    else if p.stage = .syncLost then
      { s with parser := { p with stage := .sync1 }, ubx := [] }
    else if p.stage = .frameValid then
      if ubx.getD 2 0 ≠ UBX_CLASS_ACK then
        let t := timeUtcUpd ubx s.rtcSyncRequiredFlag s.rtcSyncFlag s.rtcSetCalls
        { s with parser := { p with stage := .sync1 }, ubx := [],
                 gnss := copyFrameToGnss ubx s.gnss,
                 rtcSyncRequiredFlag := t.1, rtcSyncFlag := t.2.1,
                 rtcSetCalls := t.2.2 }
      else
        { s with parser := { p with stage := .sync1 }, ubx := [] }
    else
      { s with parser := p, ubx := ubx }

/-- Process a list of transport bytes through the `storeData` byte loop. -/
def runBytes (bs : List Nat) (s : OlaState) : OlaState :=
  bs.foldl (fun t b => step b t) s

/-- Initial state of the pipeline globals (`UBXpointer = 0`, empty buffers,
`rtcSyncRequiredFlag = true` per its declaration in the main OLA file). -/
def initOla : OlaState :=
  { parser := ⟨.sync1, 0, 0, 0, 0, 0⟩, ubx := [], frozen := false, gnss := [],
    sdBuf := [], lastSync := 0, maxAvail := 0, rtcSyncRequiredFlag := true,
    rtcSyncFlag := false, rtcSetCalls := [] }

/-! ## SD write phase (`storeData.ino` lines 366-435) -/

/-- Observable storage operations of one `storeData` invocation: a
`file.write` of the given bytes, or a `file.sync()`. -/
inductive SdAction where
  | write : List Nat → SdAction
  | sync : SdAction
deriving DecidableEq, Repr

/-- `millis() - lastDataLogSyncTime` with 32-bit unsigned wrap-around. -/
def elapsedMs (now last : Nat) : Nat :=
  (now % 4294967296 + 4294967296 - last % 4294967296) % 4294967296

/-- Lines 384-407: drain `GNSSbuffer` into `SDbuffer`; on reaching
`SDpacket` (512) bytes reset `SDpointer` and write the packet, then stop
(`keep_going = false` — at most one packet per invocation); otherwise stop
when `bufAvail` runs out.  Returns the remaining staging buffer, the new
assembly buffer and the writes issued. -/
def drainLoop : List Nat → List Nat → List Nat × List Nat × List SdAction
  | [], sdBuf => ([], sdBuf, [])
  | c :: rest, sdBuf =>
    if (sdBuf ++ [c]).length = SDpacket then (rest, [], [SdAction.write (sdBuf ++ [c])])
    else drainLoop rest (sdBuf ++ [c])

/-- `storeData.ino` lines 366-435 (`SD_WRITE` onwards): when
`settings.logData && online.microSd && online.dataLogging`, update the
`maxGNSSbufferAvailable` statistic, drain at most one 512-byte packet, and —
when more than 500 ms have elapsed since `lastDataLogSyncTime` — write any
partial `SDbuffer` contents and `file.sync()` (lines 409-422).  Otherwise
(logging disabled / SD offline) read and discard everything in `GNSSbuffer`
(lines 425-435).  `now` is the current `millis()` reading. -/
def sdPhase (logData microSd dataLogging : Bool) (now : Nat) (s : OlaState) :
    OlaState × List SdAction :=
  if logData && microSd && dataLogging then
    let maxAvail := if s.gnss.length > s.maxAvail then s.gnss.length else s.maxAvail
    let d := drainLoop s.gnss s.sdBuf
    if elapsedMs now s.lastSync > 500 then
      ({ s with gnss := d.1, sdBuf := [], lastSync := now % 4294967296,
                maxAvail := maxAvail },
       d.2.2 ++ (if d.2.1.length > 0 then [SdAction.write d.2.1] else []) ++ [SdAction.sync])
    else
      ({ s with gnss := d.1, sdBuf := d.2.1, maxAvail := maxAvail }, d.2.2)
  else
    ({ s with gnss := [] }, [])

/-- One whole `storeData` invocation: the byte loop over the transport bytes
delivered by the I2C reads (the bus handshake itself is the external
transport collaborator), followed by the SD write phase. -/
def storeDataModel (bytes : List Nat) (logData microSd dataLogging : Bool)
    (now : Nat) (s : OlaState) : OlaState × List SdAction :=
  sdPhase logData microSd dataLogging now (runBytes bytes s)

/-! ## OLA main loop fragments (`src/unnamed/part_000`, `loop()`) -/

/-- The globals of the OLA `loop()` relevant to RTC re-synchronisation. -/
structure LoopState where
  alarmFlag : Bool
  rtcSyncRequiredFlag : Bool
  measurementStartTime : Nat
  usSleepDuration : Nat
  usLoggingDuration : Nat
deriving DecidableEq, Repr

/-- `part_000` lines 224-231: on a latched RTC alarm, open a new log file,
re-arm the RTC alarm, clear `alarmFlag` and set `rtcSyncRequiredFlag`.  The
log-file and alarm collaborator calls carry no modelled state. -/
def loopAlarmBranch (ls : LoopState) : LoopState :=
  if ls.alarmFlag then { ls with alarmFlag := false, rtcSyncRequiredFlag := true }
  else ls

/-- `part_000` lines 233-244: when a sleep duration is configured and the
logging window has elapsed, enter deep sleep, advance
`measurementStartTime`, and set `rtcSyncRequiredFlag` for after the sleep. -/
def loopSleepBranch (timeNow : Nat) (ls : LoopState) : LoopState :=
  if 0 < ls.usSleepDuration ∧
      ls.measurementStartTime + ls.usLoggingDuration / 1000 < timeNow then
    { ls with
      measurementStartTime :=
        ls.measurementStartTime + ls.usLoggingDuration / 1000 + ls.usSleepDuration / 1000,
      rtcSyncRequiredFlag := true }
  else ls

/-! ## MicroMod watchdog ISR
(`Software/cryologger_gvms_micromod/cryologger_gvms_micromod.ino` 249-269) -/

/-- Observable actions of the watchdog ISR.  `systemReset` is the vocabulary
for the "unconditional hard restart of the whole system" named by the spec;
the source ISR never performs it (its terminal branch stops the watchdog and
spins in `while (1);`). -/
inductive WdtAction where
  | clearInt
  | pet
  | stopWdt
  | ledOn
  | haltLoop
  | systemReset
deriving DecidableEq, Repr

/-- State touched by `am_watchdog_isr`: `watchdogCounter`, `watchdogFlag`,
whether the terminal `while (1);` has been entered (after which no further
interrupts are serviced), and the trace of actions performed. -/
structure WdtState where
  counter : Nat
  flag : Bool
  halted : Bool
  actions : List WdtAction
deriving DecidableEq, Repr

/-- `am_watchdog_isr`: clear the interrupt; if `watchdogCounter < 10` pet the
dog (`wdt.restart()`), set `watchdogFlag` and increment the counter;
otherwise `wdt.stop()`, turn the LED on and spin forever in `while (1);`
(the flag-set and increment after the `if` are unreachable on that path). -/
def am_watchdog_isr (s : WdtState) : WdtState :=
  if s.halted then s
  else if s.counter < 10 then
    { s with actions := s.actions ++ [.clearInt, .pet],
             flag := true, counter := s.counter + 1 }
  else
    { s with actions := s.actions ++ [.clearInt, .stopWdt, .ledOn, .haltLoop],
             halted := true }

/-- Watchdog globals at boot: `watchdogCounter = 0`, `watchdogFlag = false`. -/
def initWdt : WdtState := ⟨0, false, false, []⟩

/-! ## MicroMod RTC alarm re-arming
(`Software/cryologger_gvms_micromod/01_rtc.ino` 59-90) -/

/-- The six argument fields of `rtc.setAlarm(hour, minute, seconds,
hundredths, day, month)`. -/
structure AlarmTarget where
  hour : Nat
  minute : Nat
  seconds : Nat
  hundredths : Nat
  day : Nat
  month : Nat
deriving DecidableEq, Repr

/-- RTC hardware state as seen by the firmware: the latched alarm-interrupt
bit, the programmed alarm target and match mode, and a count of alarm fires
(each fire latches the interrupt once). -/
structure RtcHw where
  pending : Bool
  target : AlarmTarget
  mode : Nat
  fired : Nat
deriving DecidableEq, Repr

/-- The RTC time fields read from `rtc.hour` / `rtc.minute` /
`rtc.dayOfMonth` / `rtc.month` when computing the alarm target. -/
structure RtcNow where
  hour : Nat
  minute : Nat
  dayOfMonth : Nat
  month : Nat
deriving DecidableEq, Repr

/-- `am_hal_rtc_int_clear(AM_HAL_RTC_INT_ALM)`: drop any latched alarm
interrupt. -/
def amHalRtcIntClear (h : RtcHw) : RtcHw := { h with pending := false }

/-- `rtc.setAlarm(...)`: program the alarm compare fields. -/
def rtcSetAlarm (t : AlarmTarget) (h : RtcHw) : RtcHw := { h with target := t }

/-- `rtc.setAlarmMode(m)`: program the alarm match mode. -/
def rtcSetAlarmMode (m : Nat) (h : RtcHw) : RtcHw := { h with mode := m }

def sleepAlarmHours : Nat := 0
def sleepAlarmMinutes : Nat := 60
def loggingAlarmHours : Nat := 0
def loggingAlarmMinutes : Nat := 60

/-- `setSleepAlarm` (`01_rtc.ino` 59-74): clear the latched alarm interrupt,
then `rtc.setAlarm((rtc.hour + sleepAlarmHours) % 24,
(rtc.minute + sleepAlarmMinutes) % 60, 0, 0, rtc.dayOfMonth, rtc.month)`,
then `rtc.setAlarmMode(5)`. -/
def setSleepAlarm (now : RtcNow) (h : RtcHw) : RtcHw :=
  rtcSetAlarmMode 5
    (rtcSetAlarm
      ⟨(now.hour + sleepAlarmHours) % 24, (now.minute + sleepAlarmMinutes) % 60,
        0, 0, now.dayOfMonth, now.month⟩
      (amHalRtcIntClear h))

/-- `setLoggingAlarm` (`01_rtc.ino` 76-90): same sequence with the logging
alarm interval. -/
def setLoggingAlarm (now : RtcNow) (h : RtcHw) : RtcHw :=
  rtcSetAlarmMode 5
    (rtcSetAlarm
      ⟨(now.hour + loggingAlarmHours) % 24, (now.minute + loggingAlarmMinutes) % 60,
        0, 0, now.dayOfMonth, now.month⟩
      (amHalRtcIntClear h))

/-- Modelled from the spec: the RTC collaborator (spec section 6) fires the
alarm when the current time fields match the programmed target under the
programmed mode; mode 5 matches hundredths, seconds and minutes.  A fire
latches the alarm interrupt. -/
def alarmMatch (m : Nat) (cur tgt : AlarmTarget) : Bool :=
  match m with
  | 5 => cur.hundredths == tgt.hundredths && cur.seconds == tgt.seconds &&
         cur.minute == tgt.minute
  | _ => false

/-- Modelled from the spec: the hardware event of the clock reaching time
`cur` — if the alarm matches, the interrupt latches and one fire is
recorded. -/
def rtcReach (cur : AlarmTarget) (h : RtcHw) : RtcHw :=
  if alarmMatch h.mode cur h.target then
    { h with pending := true, fired := h.fired + 1 }
  else h

/-! ## Derived descriptions of frame processing -/

/-- Parser state after a complete well-formed frame has been consumed and the
caller has reset the stage to sync-byte-1 (`storeData.ino` lines 349-350). -/
def pfin (c i : Nat) (p : List Nat) : ParserState :=
  ⟨.sync1, p.length % 256, p.length, p.length,
    (frameChk c i p).1, (frameChk c i p).2⟩

/-- Net effect of one complete well-formed frame on the pipeline state: an
ACK/NACK frame (class 0x05) is discarded; any other frame runs the TIMEUTC
side channel and is copied byte-for-byte into the staging buffer. -/
def frameEffect (c i : Nat) (p : List Nat) (s : OlaState) : OlaState :=
  if c = UBX_CLASS_ACK then { s with parser := pfin c i p, ubx := [] }
  else
    { s with
      parser := pfin c i p,
      ubx := [],
      gnss := copyFrameToGnss (mkFrame c i p) s.gnss,
      rtcSyncRequiredFlag :=
        (timeUtcUpd (mkFrame c i p) s.rtcSyncRequiredFlag s.rtcSyncFlag s.rtcSetCalls).1,
      rtcSyncFlag :=
        (timeUtcUpd (mkFrame c i p) s.rtcSyncRequiredFlag s.rtcSyncFlag s.rtcSetCalls).2.1,
      rtcSetCalls :=
        (timeUtcUpd (mkFrame c i p) s.rtcSyncRequiredFlag s.rtcSyncFlag s.rtcSetCalls).2.2 }

/-- A frame described by its class, id and payload. -/
def frameBytes (f : Nat × Nat × List Nat) : List Nat := mkFrame f.1 f.2.1 f.2.2

/-- Concatenation of a list of byte lists. -/
def concatBytes (l : List (List Nat)) : List Nat := l.foldr (fun a b => a ++ b) []

/-! ## Helper lemmas about the staging buffer -/

theorem take_eq_self_of_le : ∀ (l : List Nat) (n : Nat), l.length ≤ n → l.take n = l
  | [], _, _ => by simp
  | c :: l, n + 1, h => by
    simp only [List.take_succ_cons]
    rw [take_eq_self_of_le l n (by simpa using h)]

theorem copyFrameToGnss_take :
    ∀ (bs g : List Nat), g.length ≤ GNSSbufferCap →
      copyFrameToGnss bs g = g ++ bs.take (GNSSbufferCap - g.length) := by
  intro bs
  induction bs with
  | nil => intro g _; simp [copyFrameToGnss]
  | cons c bs ih =>
    intro g hg
    rcases lt_or_eq_of_le hg with hlt | heq
    · have h1 : copyFrameToGnss (c :: bs) g = copyFrameToGnss bs (g ++ [c]) := by
        simp [copyFrameToGnss, ringStoreChar, hlt]
      rw [h1, ih (g ++ [c]) (by simp; omega)]
      have h2 : GNSSbufferCap - g.length = (GNSSbufferCap - (g ++ [c]).length) + 1 := by
        simp; omega
      rw [h2]
      simp [List.take_succ_cons]
    · have h1 : copyFrameToGnss (c :: bs) g = copyFrameToGnss bs g := by
        simp [copyFrameToGnss, ringStoreChar, heq]
      rw [h1, ih g hg, heq]
      simp

theorem copyFrameToGnss_append (bs g : List Nat)
    (h : g.length + bs.length ≤ GNSSbufferCap) :
    copyFrameToGnss bs g = g ++ bs := by
  rw [copyFrameToGnss_take bs g (by omega), take_eq_self_of_le bs _ (by omega)]

theorem copyFrameToGnss_length_le :
    ∀ (bs g : List Nat), (copyFrameToGnss bs g).length ≤ g.length + bs.length := by
  intro bs
  induction bs with
  | nil => intro g; simp [copyFrameToGnss]
  | cons c bs ih =>
    intro g
    by_cases hlt : g.length < GNSSbufferCap
    · have h1 : copyFrameToGnss (c :: bs) g = copyFrameToGnss bs (g ++ [c]) := by
        simp [copyFrameToGnss, ringStoreChar, hlt]
      rw [h1]
      have := ih (g ++ [c])
      simp at this ⊢
      omega
    · have h1 : copyFrameToGnss (c :: bs) g = copyFrameToGnss bs g := by
        simp [copyFrameToGnss, ringStoreChar, hlt]
      rw [h1]
      have := ih g
      simp at this ⊢
      omega

/-! ## Helper lemmas about the SD drain loop -/

theorem drainLoop_small :
    ∀ (g buf : List Nat), buf.length + g.length < SDpacket →
      drainLoop g buf = ([], buf ++ g, []) := by
  intro g
  induction g with
  | nil => intro buf _; simp [drainLoop]
  | cons c g ih =>
    intro buf h
    have hne : (buf ++ [c]).length ≠ SDpacket := by
      simp at h ⊢; omega
    rw [drainLoop, if_neg hne, ih (buf ++ [c]) (by simp at h ⊢; omega)]
    simp

theorem drainLoop_cases :
    ∀ (g buf : List Nat), buf.length < SDpacket →
      ((drainLoop g buf).2.2 = [] ∧ (drainLoop g buf).2.1.length < SDpacket) ∨
      (∃ bs, (drainLoop g buf).2.2 = [SdAction.write bs] ∧ bs.length = SDpacket ∧
        (drainLoop g buf).2.1 = []) := by
  intro g
  induction g with
  | nil => intro buf h; left; simp [drainLoop, h]
  | cons c g ih =>
    intro buf h
    by_cases hfull : (buf ++ [c]).length = SDpacket
    · right
      refine ⟨buf ++ [c], ?_⟩
      rw [drainLoop, if_pos hfull]
      exact ⟨rfl, hfull, rfl⟩
    · rw [drainLoop, if_neg hfull]
      exact ih (buf ++ [c]) (by simp at hfull ⊢; omega)

/-! ## Helper lemmas about the byte loop -/

theorem runBytes_nil (s : OlaState) : runBytes [] s = s := rfl

theorem runBytes_cons (b : Nat) (bs : List Nat) (s : OlaState) :
    runBytes (b :: bs) s = runBytes bs (step b s) := rfl

theorem runBytes_append (xs ys : List Nat) (s : OlaState) :
    runBytes (xs ++ ys) s = runBytes ys (runBytes xs s) := by
  simp [runBytes, List.foldl_append]

/-- A mid-frame byte (parser neither reports `syncLost` nor `frameValid`, and
`UBXbuffer` does not overflow) just advances the parser and appends the byte
to `UBXbuffer`. -/
theorem step_mid (b : Nat) (s : OlaState) (h1 : s.frozen = false)
    (h2 : s.ubx.length + 1 ≠ UBXbufferSize)
    (h3 : (processUbx b s.parser).stage ≠ .syncLost)
    (h4 : (processUbx b s.parser).stage ≠ .frameValid) :
    step b s = { s with parser := processUbx b s.parser, ubx := s.ubx ++ [b] } := by
  rw [step]
  rw [if_neg (by simp [h1])]
  rw [if_neg (by simpa using h2), if_neg h3, if_neg h4]

/-- Running the parser over the payload bytes of a frame: the checksum is
folded over the payload, the stage advances to the first checksum byte, and
the bytes accumulate in `UBXbuffer`. -/
theorem runBytes_payload :
    ∀ (q : List Nat) (s : OlaState), s.frozen = false →
      s.parser.stage = .payload → s.parser.cnt + q.length = s.parser.len →
      q ≠ [] → s.ubx.length + q.length ≤ 4095 →
      runBytes q s =
        { s with
          parser := { s.parser with
                      stage := .ckA,
                      cnt := s.parser.len,
                      ckA := (fletcherFold (s.parser.ckA, s.parser.ckB) q).1,
                      ckB := (fletcherFold (s.parser.ckA, s.parser.ckB) q).2 },
          ubx := s.ubx ++ q } := by
  intro q
  induction q with
  | nil => intro s _ _ _ hq _; exact absurd rfl hq
  | cons b q ih =>
    intro s hfz hst hcnt _ hub
    obtain ⟨⟨st, l0, n0, k0, a0, b0⟩, ubx0, fz, g, sb, ls, mx, rq, rs, rc⟩ := s
    simp only at hfz hst hcnt hub
    subst hfz hst
    rcases q with _ | ⟨b2, q⟩
    · -- last payload byte: counter reaches the length, stage moves to ckA
      have hc1 : k0 + 1 = n0 := by simpa using hcnt
      rw [runBytes_cons, step_mid _ _ rfl
          (by simp [UBXbufferSize] at hub ⊢; omega)
          (by simp [processUbx, ckUpd, hc1])
          (by simp [processUbx, ckUpd, hc1])]
      simp [processUbx, ckUpd, hc1, runBytes_nil, fletcherFold]
    · -- interior payload byte: stage remains payload, recurse
      have hc1 : ¬ (k0 + 1 = n0) := by simp at hcnt; omega
      rw [runBytes_cons, step_mid _ _ rfl
          (by simp [UBXbufferSize] at hub ⊢; omega)
          (by simp [processUbx, ckUpd, hc1])
          (by simp [processUbx, ckUpd, hc1])]
      rw [show processUbx b ⟨.payload, l0, n0, k0, a0, b0⟩ =
            ⟨.payload, l0, n0, k0 + 1, (a0 + b) % 256, (b0 + (a0 + b) % 256) % 256⟩ by
          simp [processUbx, ckUpd, hc1]]
      rw [ih _ rfl rfl (by simp at hcnt ⊢; omega) (by simp)
          (by simp at hub ⊢; omega)]
      simp [fletcherFold]

/-- The byte that completes a checksum-valid frame triggers the
classification branch of `storeData` (lines 177-351). -/
theorem step_valid (b : Nat) (s : OlaState) (h1 : s.frozen = false)
    (h2 : s.ubx.length + 1 ≠ UBXbufferSize)
    (h3 : (processUbx b s.parser).stage = .frameValid) :
    step b s =
      if (s.ubx ++ [b]).getD 2 0 ≠ UBX_CLASS_ACK then
        { s with
          parser := { processUbx b s.parser with stage := .sync1 },
          ubx := [],
          gnss := copyFrameToGnss (s.ubx ++ [b]) s.gnss,
          rtcSyncRequiredFlag :=
            (timeUtcUpd (s.ubx ++ [b]) s.rtcSyncRequiredFlag s.rtcSyncFlag s.rtcSetCalls).1,
          rtcSyncFlag :=
            (timeUtcUpd (s.ubx ++ [b]) s.rtcSyncRequiredFlag s.rtcSyncFlag s.rtcSetCalls).2.1,
          rtcSetCalls :=
            (timeUtcUpd (s.ubx ++ [b]) s.rtcSyncRequiredFlag s.rtcSyncFlag s.rtcSetCalls).2.2 }
      else
        { s with parser := { processUbx b s.parser with stage := .sync1 }, ubx := [] } := by
  rw [step]
  rw [if_neg (by simp [h1])]
  simp only [h3]
  rw [if_neg (by simpa using h2)]
  rw [if_neg (by simp)]
  simp

/-- Processing one complete well-formed frame from a clean parser state:
the pipeline consumes it atomically, returning to a clean state with the
frame's net effect applied. -/
theorem runFrame (c i : Nat) (p : List Nat) (s : OlaState)
    (h1 : s.parser.stage = .sync1) (h2 : s.ubx = []) (h3 : s.frozen = false)
    (h4 : p.length + 8 ≤ 4095) :
    runBytes (mkFrame c i p) s = frameEffect c i p s := by
  obtain ⟨⟨st, l0, n0, k0, a0, b0⟩, ubx0, fz, g, sb, ls, mx, rq, rs, rc⟩ := s
  simp only at h1 h2 h3
  subst h1 h2 h3
  rcases p with _ | ⟨pb, pt⟩
  · -- empty payload: the whole 8-byte frame evaluates directly
    rcases eq_or_ne c UBX_CLASS_ACK with hc | hc
    · simp [mkFrame, frameChk, fletcherFold, frameEffect, pfin, runBytes, step,
            processUbx, ckUpd, UBXbufferSize, UBX_CLASS_ACK, hc]
    · simp [mkFrame, frameChk, fletcherFold, frameEffect, pfin, runBytes, step,
            processUbx, ckUpd, timeUtcUpd, UBXbufferSize, UBX_CLASS_ACK, hc]
  · -- nonempty payload
    simp only [List.length_cons] at h4
    have hm : (pt.length + 1) % 256 + 256 * ((pt.length + 1) / 256) =
        pt.length + 1 := Nat.mod_add_div _ _
    have hnz : ¬ ((pt.length + 1) % 256 = 0 ∧ (pt.length + 1) / 256 = 0) := by
      omega
    have e6 : runBytes
        [0xB5, 0x62, c, i, (pb :: pt).length % 256, (pb :: pt).length / 256]
        ⟨⟨.sync1, l0, n0, k0, a0, b0⟩, [], false, g, sb, ls, mx, rq, rs, rc⟩ =
        ⟨⟨.payload, (pb :: pt).length % 256, (pb :: pt).length, 0,
          (fletcherFold (0, 0) [c, i, (pb :: pt).length % 256, (pb :: pt).length / 256]).1,
          (fletcherFold (0, 0) [c, i, (pb :: pt).length % 256, (pb :: pt).length / 256]).2⟩,
          [0xB5, 0x62, c, i, (pb :: pt).length % 256, (pb :: pt).length / 256],
          false, g, sb, ls, mx, rq, rs, rc⟩ := by
      simp [runBytes, step, processUbx, ckUpd, fletcherFold, UBXbufferSize, hm, hnz]
    have e7 : runBytes (pb :: pt)
        ⟨⟨.payload, (pb :: pt).length % 256, (pb :: pt).length, 0,
          (fletcherFold (0, 0) [c, i, (pb :: pt).length % 256, (pb :: pt).length / 256]).1,
          (fletcherFold (0, 0) [c, i, (pb :: pt).length % 256, (pb :: pt).length / 256]).2⟩,
          [0xB5, 0x62, c, i, (pb :: pt).length % 256, (pb :: pt).length / 256],
          false, g, sb, ls, mx, rq, rs, rc⟩ =
        ⟨⟨.ckA, (pb :: pt).length % 256, (pb :: pt).length, (pb :: pt).length,
          (frameChk c i (pb :: pt)).1, (frameChk c i (pb :: pt)).2⟩,
          [0xB5, 0x62, c, i, (pb :: pt).length % 256, (pb :: pt).length / 256] ++ (pb :: pt),
          false, g, sb, ls, mx, rq, rs, rc⟩ := by
      rw [runBytes_payload (pb :: pt) _ rfl rfl (by simp) (by simp)
          (by simp; omega)]
      simp [frameChk, fletcherFold, Prod.mk.eta, List.foldl_append]
    have e8 : step (frameChk c i (pb :: pt)).1
        ⟨⟨.ckA, (pb :: pt).length % 256, (pb :: pt).length, (pb :: pt).length,
          (frameChk c i (pb :: pt)).1, (frameChk c i (pb :: pt)).2⟩,
          [0xB5, 0x62, c, i, (pb :: pt).length % 256, (pb :: pt).length / 256] ++ (pb :: pt),
          false, g, sb, ls, mx, rq, rs, rc⟩ =
        ⟨⟨.ckB, (pb :: pt).length % 256, (pb :: pt).length, (pb :: pt).length,
          (frameChk c i (pb :: pt)).1, (frameChk c i (pb :: pt)).2⟩,
          ([0xB5, 0x62, c, i, (pb :: pt).length % 256, (pb :: pt).length / 256] ++ (pb :: pt)) ++
            [(frameChk c i (pb :: pt)).1],
          false, g, sb, ls, mx, rq, rs, rc⟩ := by
      rw [step_mid _ _ rfl (by simp [UBXbufferSize]; omega)
          (by simp [processUbx]) (by simp [processUbx])]
      simp [processUbx]
    have e9 := step_valid (frameChk c i (pb :: pt)).2
        ⟨⟨.ckB, (pb :: pt).length % 256, (pb :: pt).length, (pb :: pt).length,
          (frameChk c i (pb :: pt)).1, (frameChk c i (pb :: pt)).2⟩,
          ([0xB5, 0x62, c, i, (pb :: pt).length % 256, (pb :: pt).length / 256] ++ (pb :: pt)) ++
            [(frameChk c i (pb :: pt)).1],
          false, g, sb, ls, mx, rq, rs, rc⟩
        rfl (by simp [UBXbufferSize]; omega) (by simp [processUbx])
    have hfb : ((([0xB5, 0x62, c, i, (pb :: pt).length % 256,
          (pb :: pt).length / 256] ++ (pb :: pt)) ++ [(frameChk c i (pb :: pt)).1]) ++
          [(frameChk c i (pb :: pt)).2]) = mkFrame c i (pb :: pt) := by
      simp [mkFrame]
    rw [show mkFrame c i (pb :: pt) =
        [0xB5, 0x62, c, i, (pb :: pt).length % 256, (pb :: pt).length / 256] ++
          ((pb :: pt) ++ [(frameChk c i (pb :: pt)).1, (frameChk c i (pb :: pt)).2]) from
        by simp [mkFrame]]
    rw [runBytes_append, e6, runBytes_append, e7, runBytes_cons, e8, runBytes_cons,
        runBytes_nil, e9]
    simp only at hfb ⊢
    rw [hfb]
    have hgd : (mkFrame c i (pb :: pt)).getD 2 0 = c := rfl
    rcases eq_or_ne c UBX_CLASS_ACK with hc | hc
    · rw [if_neg (by rw [hgd, hc]; simp)]
      simp [frameEffect, pfin, hc, processUbx]
    · have hc5 : ¬ (c = 5) := hc
      rw [if_pos (by rw [hgd]; exact hc)]
      simp [frameEffect, pfin, hc5, processUbx, UBX_CLASS_ACK]

theorem concatBytes_nil : concatBytes [] = [] := rfl

theorem concatBytes_cons (x : List Nat) (l : List (List Nat)) :
    concatBytes (x :: l) = x ++ concatBytes l := rfl

theorem mkFrame_length (c i : Nat) (p : List Nat) :
    (mkFrame c i p).length = p.length + 8 := by
  simp [mkFrame]

theorem frameEffect_gnss (c i : Nat) (p : List Nat) (s : OlaState) :
    (frameEffect c i p s).gnss =
      if c = 5 then s.gnss else copyFrameToGnss (mkFrame c i p) s.gnss := by
  rw [frameEffect]
  rcases eq_or_ne c 5 with h | h
  · rw [if_pos (show c = UBX_CLASS_ACK from h), if_pos h]
  · rw [if_neg (show ¬ (c = UBX_CLASS_ACK) from h), if_neg h]

theorem frameEffect_stage (c i : Nat) (p : List Nat) (s : OlaState) :
    (frameEffect c i p s).parser.stage = .sync1 := by
  rw [frameEffect]; split <;> rfl

theorem frameEffect_ubx (c i : Nat) (p : List Nat) (s : OlaState) :
    (frameEffect c i p s).ubx = [] := by
  rw [frameEffect]; split <;> rfl

theorem frameEffect_frozen (c i : Nat) (p : List Nat) (s : OlaState) :
    (frameEffect c i p s).frozen = s.frozen := by
  rw [frameEffect]; split <;> rfl

/-- C1: for every checksum-valid frame recognized while streaming, a frame of
the ACK class (0x05) is discarded — none of its bytes reach `GNSSbuffer` —
and every other valid frame is copied into `GNSSbuffer` byte-for-byte in
order: a stream of frames leaves exactly the non-ACK frames' bytes,
concatenated in order, in the staging buffer (given that they fit, per the
separate overflow policy), and returns the pipeline to a clean parser
state. -/
theorem c1_ack_frames_never_staged (fs : List (Nat × Nat × List Nat)) (s : OlaState)
    (h1 : s.parser.stage = .sync1) (h2 : s.ubx = []) (h3 : s.frozen = false)
    (hlen : ∀ f ∈ fs, f.2.2.length + 8 ≤ 4095)
    (hcap : s.gnss.length +
        (concatBytes ((fs.filter (fun f => f.1 != 5)).map frameBytes)).length ≤
        GNSSbufferCap) :
    (runBytes (concatBytes (fs.map frameBytes)) s).gnss =
        s.gnss ++ concatBytes ((fs.filter (fun f => f.1 != 5)).map frameBytes) ∧
      (runBytes (concatBytes (fs.map frameBytes)) s).parser.stage = .sync1 ∧
      (runBytes (concatBytes (fs.map frameBytes)) s).ubx = [] ∧
      (runBytes (concatBytes (fs.map frameBytes)) s).frozen = false := by
  induction fs generalizing s with
  | nil => simp [concatBytes, runBytes_nil, h1, h2, h3]
  | cons f fs ih =>
    obtain ⟨fc, fi, fp⟩ := f
    have hf : fp.length + 8 ≤ 4095 := hlen _ (List.mem_cons_self _ _)
    rw [List.map_cons, concatBytes_cons, runBytes_append,
      show frameBytes (fc, fi, fp) = mkFrame fc fi fp from rfl,
      runFrame fc fi fp s h1 h2 h3 hf]
    rcases eq_or_ne fc 5 with h5 | h5
    · -- ACK/NACK frame: discarded, staging buffer untouched
      have hfe : frameEffect fc fi fp s =
          { s with parser := pfin fc fi fp, ubx := [] } := by
        rw [frameEffect, if_pos (show fc = UBX_CLASS_ACK from h5)]
      have hfilter : ((fc, fi, fp) :: fs).filter (fun f => f.1 != 5) =
          fs.filter (fun f => f.1 != 5) := by
        simp [List.filter_cons, h5]
      rw [hfilter] at hcap ⊢
      rw [hfe]
      exact ih _ rfl rfl h3 (fun f hm => hlen f (List.mem_cons_of_mem _ hm)) hcap
    · -- non-ACK frame: staged in full
      have hfilter : ((fc, fi, fp) :: fs).filter (fun f => f.1 != 5) =
          (fc, fi, fp) :: fs.filter (fun f => f.1 != 5) := by
        simp [List.filter_cons, h5]
      rw [hfilter, List.map_cons, concatBytes_cons] at hcap ⊢
      rw [show frameBytes (fc, fi, fp) = mkFrame fc fi fp from rfl] at hcap ⊢
      have hlens : s.gnss.length + ((mkFrame fc fi fp).length +
          (concatBytes ((fs.filter (fun f => f.1 != 5)).map frameBytes)).length) ≤
          GNSSbufferCap := by
        simpa using hcap
      have hcc : copyFrameToGnss (mkFrame fc fi fp) s.gnss =
          s.gnss ++ mkFrame fc fi fp :=
        copyFrameToGnss_append (mkFrame fc fi fp) s.gnss (by omega)
      have hg : (frameEffect fc fi fp s).gnss = s.gnss ++ mkFrame fc fi fp := by
        rw [frameEffect_gnss, if_neg h5, hcc]
      have hst : (frameEffect fc fi fp s).parser.stage = .sync1 :=
        frameEffect_stage fc fi fp s
      have hub : (frameEffect fc fi fp s).ubx = [] := frameEffect_ubx fc fi fp s
      have hfz : (frameEffect fc fi fp s).frozen = false := by
        rw [frameEffect_frozen]; exact h3
      have hcap2 : (frameEffect fc fi fp s).gnss.length +
          (concatBytes ((fs.filter (fun f => f.1 != 5)).map frameBytes)).length ≤
          GNSSbufferCap := by
        rw [hg]; simp; omega
      have hrec := ih (frameEffect fc fi fp s) hst hub hfz
        (fun f hm => hlen f (List.mem_cons_of_mem _ hm)) hcap2
      refine ⟨?_, hrec.2.1, hrec.2.2.1, hrec.2.2.2⟩
      rw [hrec.1, hg, List.append_assoc]

/-- Witness for `c1_ack_frames_never_staged`: an ACK frame (class 0x05)
followed by a non-ACK frame leaves exactly the non-ACK frame's bytes in the
staging buffer. -/
theorem c1_ack_frames_never_staged_witness :
    (runBytes (concatBytes
        (([(5, 1, []), (2, 21, [9])] : List (Nat × Nat × List Nat)).map frameBytes))
      initOla).gnss = mkFrame 2 21 [9] := by
  have h := c1_ack_frames_never_staged [(5, 1, []), (2, 21, [9])] initOla rfl rfl rfl
    (by decide) (by decide)
  rw [h.1]
  decide

/-- C9: a byte that brings the per-frame `UBXbuffer` to `UBXbufferSize`
(4096) bytes freezes the pipeline permanently (the source prints a
diagnostic and enters `while (1);`) without staging anything; once frozen,
every further invocation is a no-op; and no single step ever stages more
than 4095 bytes (so no frame longer than 4095 bytes is ever staged), with the
`UBXpointer < 4096` bound preserved whenever the pipeline is not frozen. -/
theorem c9_ubx_overflow_freezes (b : Nat) (s : OlaState) (hfz : s.frozen = false)
    (hinv : s.ubx.length ≤ 4095) :
    (s.ubx.length = 4095 → (step b s).frozen = true ∧ (step b s).gnss = s.gnss) ∧
      (step b s).gnss.length ≤ s.gnss.length + 4095 ∧
      ((step b s).frozen = false → (step b s).ubx.length ≤ 4095) ∧
      (∀ s2 : OlaState, s2.frozen = true → step b s2 = s2) := by
  refine ⟨?_, ?_, ?_, ?_⟩
  · intro h95
    rw [step, if_neg (by simp [hfz])]
    rw [if_pos (show (s.ubx ++ [b]).length = UBXbufferSize by
      simp [UBXbufferSize, h95])]
    exact ⟨rfl, rfl⟩
  · simp only [step, hfz, Bool.false_eq_true, if_false]
    split_ifs with hlen hlost hval hack
    · simp
    · simp
    · have h1 := copyFrameToGnss_length_le (s.ubx ++ [b]) s.gnss
      have h2 : (s.ubx ++ [b]).length ≤ 4095 := by
        simp [UBXbufferSize] at hlen ⊢
        omega
      simp only []
      simp at h1 h2
      omega
    · simp
    · simp
  · simp only [step, hfz, Bool.false_eq_true, if_false]
    split_ifs with hlen hlost hval hack
    · intro hq
      simp at hq
    · intro _
      simp
    · intro _
      simp
    · intro _
      simp
    · intro _
      simp [UBXbufferSize] at hlen ⊢
      omega
  · intro s2 h
    rw [step, if_pos h]

/-- Witness for `c9_ubx_overflow_freezes`: a 4096th in-progress byte freezes
the pipeline. -/
theorem c9_ubx_overflow_freezes_witness :
    (step 0 { initOla with ubx := List.replicate 4095 0 }).frozen = true := by
  have hl : (List.replicate 4095 (0 : Nat)).length = 4095 :=
    List.length_replicate _ _
  have h := c9_ubx_overflow_freezes 0 { initOla with ubx := List.replicate 4095 0 }
    rfl (le_of_eq hl)
  exact (h.1 hl).1

/-- C10: when `settings.logData && online.microSd && online.dataLogging` is
false, a `storeData` invocation drains `GNSSbuffer` completely and discards
every byte (the buffer is empty afterwards), performs no storage write or
sync, while the parser phase still runs — the parser state and the RTC-sync
side channel advance exactly as they would with logging online. -/
theorem c10_offline_discards (bytes : List Nat) (ld ms dl : Bool) (now : Nat)
    (s : OlaState) (hoff : (ld && ms && dl) = false) :
    (storeDataModel bytes ld ms dl now s).1.gnss = [] ∧
      (storeDataModel bytes ld ms dl now s).2 = [] ∧
      (storeDataModel bytes ld ms dl now s).1.parser = (runBytes bytes s).parser ∧
      (storeDataModel bytes ld ms dl now s).1.rtcSetCalls =
        (runBytes bytes s).rtcSetCalls := by
  rw [storeDataModel, sdPhase, if_neg (by simp [hoff])]
  exact ⟨rfl, rfl, rfl, rfl⟩

/-- Witness for `c10_offline_discards`: with data logging offline, a
complete frame is parsed but discarded and nothing is written. -/
theorem c10_offline_discards_witness :
    (storeDataModel (mkFrame 2 21 []) true true false 0 initOla).1.gnss = [] ∧
      (storeDataModel (mkFrame 2 21 []) true true false 0 initOla).2 = [] := by
  have h := c10_offline_discards (mkFrame 2 21 []) true true false 0 initOla
    (by decide)
  exact ⟨h.1, h.2.1⟩

/-- C4: whenever more than 500 ms have elapsed since `lastDataLogSyncTime`,
the invocation ends by writing any partial `SDbuffer` contents followed by a
`file.sync()`, independently of block completion, resetting `SDpointer` and
the sync timer (first conjunct); and a single staged 500-byte frame produces
zero writes while the timer has not fired (it merely moves into `SDbuffer`),
then exactly one 500-byte partial write followed by a sync once it fires
(second conjunct). -/
theorem c4_periodic_flush_writes_partial :
    (∀ (t : OlaState) (now : Nat), elapsedMs now t.lastSync > 500 →
      (sdPhase true true true now t).2 =
          (drainLoop t.gnss t.sdBuf).2.2 ++
            (if 0 < (drainLoop t.gnss t.sdBuf).2.1.length then
              [SdAction.write (drainLoop t.gnss t.sdBuf).2.1] else []) ++
            [SdAction.sync] ∧
        (sdPhase true true true now t).1.sdBuf = [] ∧
        (sdPhase true true true now t).1.lastSync = now % 4294967296) ∧
    (∀ (s : OlaState) (g : List Nat) (now1 : Nat),
      s.sdBuf = [] → s.gnss = g → g.length = 500 →
      elapsedMs now1 s.lastSync ≤ 500 →
        (sdPhase true true true now1 s).2 = [] ∧
        (sdPhase true true true now1 s).1.sdBuf = g ∧
        (sdPhase true true true now1 s).1.gnss = [] ∧
        (sdPhase true true true now1 s).1.lastSync = s.lastSync ∧
        (∀ now2 : Nat, elapsedMs now2 s.lastSync > 500 →
          (sdPhase true true true now2 (sdPhase true true true now1 s).1).2 =
              [SdAction.write g, SdAction.sync] ∧
            (sdPhase true true true now2 (sdPhase true true true now1 s).1).1.sdBuf =
              [])) := by
  constructor
  · intro t now ht
    simp only [sdPhase]
    rw [if_pos (show (true && true && true) = true from rfl), if_pos ht]
    exact ⟨rfl, rfl, rfl⟩
  · intro s g now1 hsd hg hlen h1
    have hdrain : drainLoop s.gnss s.sdBuf = ([], s.sdBuf ++ s.gnss, []) :=
      drainLoop_small s.gnss s.sdBuf
        (by rw [hsd, hg]; simp [hlen, SDpacket])
    obtain ⟨mv, hfirst⟩ : ∃ mv, sdPhase true true true now1 s =
        ({ s with gnss := [], sdBuf := s.sdBuf ++ s.gnss, maxAvail := mv }, []) := by
      refine ⟨if s.gnss.length > s.maxAvail then s.gnss.length else s.maxAvail, ?_⟩
      simp only [sdPhase]
      rw [if_pos (show (true && true && true) = true from rfl), if_neg (by omega),
        hdrain]
    rw [hfirst]
    refine ⟨rfl, by rw [hsd, hg]; simp, rfl, rfl, ?_⟩
    intro now2 h2
    have hd2 : drainLoop
        ({ s with gnss := [], sdBuf := s.sdBuf ++ s.gnss, maxAvail := mv } :
          OlaState).gnss
        ({ s with gnss := [], sdBuf := s.sdBuf ++ s.gnss, maxAvail := mv } :
          OlaState).sdBuf = ([], s.sdBuf ++ s.gnss, []) := rfl
    simp only [sdPhase]
    rw [if_pos (show (true && true && true) = true from rfl),
      if_pos (show elapsedMs now2
        ({ s with gnss := [], sdBuf := s.sdBuf ++ s.gnss, maxAvail := mv } :
          OlaState).lastSync > 500 from h2),
      hd2]
    constructor
    · rw [hsd, hg]
      simp [hlen]
    · rfl

/-- Witness for `c4_periodic_flush_writes_partial`: 500 staged bytes, a
first invocation 100 ms after the last sync (no write), a second at 601 ms
(one 500-byte partial write, then sync). -/
theorem c4_periodic_flush_writes_partial_witness :
    (sdPhase true true true 100 { initOla with gnss := List.replicate 500 3 }).2 =
        [] ∧
      (sdPhase true true true 601
        (sdPhase true true true 100
          { initOla with gnss := List.replicate 500 3 }).1).2 =
        [SdAction.write (List.replicate 500 3), SdAction.sync] := by
  have h := c4_periodic_flush_writes_partial.2
    { initOla with gnss := List.replicate 500 3 } (List.replicate 500 3) 100
    rfl rfl (List.length_replicate _ _) (by decide)
  exact ⟨h.1, (h.2.2.2.2 601 (by decide)).1⟩

/-- C5: one `storeData` invocation issues at most one full-block write from
the drain loop, and that write is exactly `SDpacket` (512) bytes with the
assembly pointer reset (the drain loop leaves `SDbuffer` empty); any other
write of the invocation is the final partial block of the periodic sync,
strictly shorter than 512 bytes and immediately followed by the sync; the
`SDpointer < 512` bound is preserved. -/
theorem c5_at_most_one_full_block (ld ms dl : Bool) (now : Nat) (s : OlaState)
    (hsd : s.sdBuf.length < SDpacket) :
    ∃ dw tl, (sdPhase ld ms dl now s).2 = dw ++ tl ∧
      (dw = [] ∨ ∃ bs, dw = [SdAction.write bs] ∧ bs.length = SDpacket ∧
        (drainLoop s.gnss s.sdBuf).2.1 = []) ∧
      (tl = [] ∨ tl = [SdAction.sync] ∨
        ∃ pb, tl = [SdAction.write pb, SdAction.sync] ∧ 0 < pb.length ∧
          pb.length < SDpacket) ∧
      (sdPhase ld ms dl now s).1.sdBuf.length < SDpacket := by
  by_cases hon : (ld && ms && dl) = true
  · rw [sdPhase, if_pos hon]
    rcases drainLoop_cases s.gnss s.sdBuf hsd with ⟨ha, hb⟩ | ⟨bs, ha, hb, hc⟩
    · by_cases ht : elapsedMs now s.lastSync > 500
      · rw [if_pos ht]
        refine ⟨[],
          (if 0 < (drainLoop s.gnss s.sdBuf).2.1.length then
            [SdAction.write (drainLoop s.gnss s.sdBuf).2.1] else []) ++
            [SdAction.sync],
          by rw [ha]; simp, Or.inl rfl, ?_, by simp [SDpacket]⟩
        by_cases hz : 0 < (drainLoop s.gnss s.sdBuf).2.1.length
        · exact Or.inr (Or.inr ⟨_, by rw [if_pos hz]; rfl, hz, hb⟩)
        · refine Or.inr (Or.inl ?_)
          rw [if_neg hz]
          rfl
      · rw [if_neg ht]
        exact ⟨[], [], by rw [ha]; simp, Or.inl rfl, Or.inl rfl, hb⟩
    · by_cases ht : elapsedMs now s.lastSync > 500
      · rw [if_pos ht]
        refine ⟨[SdAction.write bs], [SdAction.sync],
          by rw [ha, hc]; simp, Or.inr ⟨bs, rfl, hb, hc⟩, Or.inr (Or.inl rfl),
          by simp [SDpacket]⟩
      · rw [if_neg ht]
        exact ⟨[SdAction.write bs], [], by rw [ha]; simp, Or.inr ⟨bs, rfl, hb, hc⟩,
          Or.inl rfl, by rw [hc]; simp [SDpacket]⟩
  · rw [sdPhase, if_neg (by simpa using hon)]
    exact ⟨[], [], rfl, Or.inl rfl, Or.inl rfl, hsd⟩

/-- Witness for `c5_at_most_one_full_block` at a concrete state: 600 staged
bytes produce one full 512-byte write; the timer has not fired. -/
theorem c5_at_most_one_full_block_witness :
    ∃ dw tl,
      (sdPhase true true true 100
        { initOla with gnss := List.replicate 600 1 }).2 = dw ++ tl ∧
      (dw = [] ∨ ∃ bs, dw = [SdAction.write bs] ∧ bs.length = SDpacket ∧
        (drainLoop ({ initOla with gnss := List.replicate 600 1 } : OlaState).gnss
          ({ initOla with gnss := List.replicate 600 1 } : OlaState).sdBuf).2.1 = []) ∧
      (tl = [] ∨ tl = [SdAction.sync] ∨
        ∃ pb, tl = [SdAction.write pb, SdAction.sync] ∧ 0 < pb.length ∧
          pb.length < SDpacket) ∧
      (sdPhase true true true 100
        { initOla with gnss := List.replicate 600 1 }).1.sdBuf.length < SDpacket :=
  c5_at_most_one_full_block true true true 100
    { initOla with gnss := List.replicate 600 1 } (by decide)

/-- C2 counterexample: the staging buffer's `store_char` loop reports
nothing.  With free capacity `k = 1`, offering `k + 1 = 2` bytes produces a
program state identical to offering only the first byte: the overflowed byte
is silently lost with no truncated count reported and no accounting
anywhere in the state, contradicting the claim that the caller can account
the overflow from a reported truncated count. -/
theorem c2_overflow_unaccounted_counterexample :
    copyFrameToGnss [1, 2] (List.replicate 24575 0) =
        copyFrameToGnss [1] (List.replicate 24575 0) ∧
      (List.replicate 24575 (0 : Nat)).length + 1 = GNSSbufferCap := by
  have hl : (List.replicate 24575 (0 : Nat)).length = 24575 :=
    List.length_replicate _ _
  have hle : (List.replicate 24575 (0 : Nat)).length ≤ GNSSbufferCap := by
    rw [hl]; norm_num [GNSSbufferCap]
  have h1 := copyFrameToGnss_take [1, 2] (List.replicate 24575 0) hle
  have h2 := copyFrameToGnss_take [1] (List.replicate 24575 0) hle
  have hk : GNSSbufferCap - (List.replicate 24575 (0 : Nat)).length = 1 := by
    rw [hl]; norm_num [GNSSbufferCap]
  rw [h1, h2, hk]
  exact ⟨rfl, by rw [hl]; norm_num [GNSSbufferCap]⟩

/-- C2 as amended: an append of `k + j` bytes to the staging buffer with
free capacity `k` accepts exactly the first `k` bytes and silently drops the
`j` excess bytes — no truncated count is reported and no state records the
overflow: the resulting buffer is identical to appending only the first `k`
bytes. -/
theorem c2_append_truncates_silently (g bs : List Nat) (k j : Nat)
    (hk : g.length + k = GNSSbufferCap) (hbs : bs.length = k + j) :
    copyFrameToGnss bs g = g ++ bs.take k ∧
      copyFrameToGnss bs g = copyFrameToGnss (bs.take k) g := by
  have hg : g.length ≤ GNSSbufferCap := by omega
  have hkk : GNSSbufferCap - g.length = k := by omega
  have h1 := copyFrameToGnss_take bs g hg
  have h2 := copyFrameToGnss_take (bs.take k) g hg
  rw [h1, h2, hkk]
  refine ⟨rfl, ?_⟩
  rw [List.take_take]
  simp

/-- Witness for `c2_append_truncates_silently`: with one free slot, two
offered bytes leave only the first in the buffer. -/
theorem c2_append_truncates_silently_witness :
    copyFrameToGnss [7, 8] (List.replicate 24575 0) =
      List.replicate 24575 0 ++ [7] := by
  have hl : (List.replicate 24575 (0 : Nat)).length = 24575 :=
    List.length_replicate _ _
  have h := c2_append_truncates_silently (List.replicate 24575 0) [7, 8] 1 1
    (by rw [hl]; norm_num [GNSSbufferCap]) (by decide)
  rw [h.1]
  rfl

theorem frameEffect_rtcSetCalls (c i : Nat) (p : List Nat) (s : OlaState) :
    (frameEffect c i p s).rtcSetCalls =
      if c = 5 then s.rtcSetCalls
      else (timeUtcUpd (mkFrame c i p) s.rtcSyncRequiredFlag s.rtcSyncFlag
        s.rtcSetCalls).2.2 := by
  rw [frameEffect]
  rcases eq_or_ne c 5 with h | h
  · rw [if_pos (show c = UBX_CLASS_ACK from h), if_pos h]
  · rw [if_neg (show ¬ (c = UBX_CLASS_ACK) from h), if_neg h]

/-- C6: a complete UBX-NAV-TIMEUTC frame (class 0x01, id 0x21) whose
`validUTC` bit is set and whose 32-bit `nano` field is negative (two's
complement: `2^31 ≤ nano`) results, when a sync is required, in exactly one
`rtc.setTime` call being appended, carrying the decoded
year/month/day/hour/minute/second fields, and its fractional (hundredths)
argument is clamped to 0 (toward zero, before the division by 10^7). -/
theorem c6_negative_nanos_clamped (p : List Nat) (s : OlaState)
    (h1 : s.parser.stage = .sync1) (h2 : s.ubx = []) (h3 : s.frozen = false)
    (h4 : p.length + 8 ≤ 4095) (hrq : s.rtcSyncRequiredFlag = true)
    (hvalid : Nat.land ((mkFrame 1 33 p).getD 25 0) 4 = 4)
    (hneg : 2 ^ 31 ≤ nanosOf (mkFrame 1 33 p))
    (hlt : nanosOf (mkFrame 1 33 p) < 2 ^ 32) :
    (runBytes (mkFrame 1 33 p) s).rtcSetCalls =
        s.rtcSetCalls ++ [mkRtcCall (mkFrame 1 33 p)] ∧
      (mkRtcCall (mkFrame 1 33 p)).hundredths = 0 := by
  have hcent : clampNanos (nanosOf (mkFrame 1 33 p)) = 0 := by
    have hinner : (if nanosOf (mkFrame 1 33 p) < 2 ^ 31 then
        (nanosOf (mkFrame 1 33 p) : Int)
        else (nanosOf (mkFrame 1 33 p) : Int) - 2 ^ 32) =
        (nanosOf (mkFrame 1 33 p) : Int) - 2 ^ 32 := if_neg (by omega)
    rw [clampNanos, hinner, if_pos (by omega)]
  constructor
  · rw [runFrame 1 33 p s h1 h2 h3 h4, frameEffect_rtcSetCalls,
      if_neg (by norm_num)]
    rw [timeUtcUpd,
      if_pos (show (mkFrame 1 33 p).getD 2 0 = 0x01 from rfl),
      if_pos (show (mkFrame 1 33 p).getD 3 0 = 0x21 from rfl),
      if_pos hrq, if_pos ⟨hvalid, hrq⟩]
  · show clampNanos (nanosOf (mkFrame 1 33 p)) / 10000000 % 256 = 0
    rw [hcent]

/-- Witness for `c6_negative_nanos_clamped`: a time-valid TIMEUTC frame for
2022-05-11 10:30:00 with `nano = -2` yields one RTC set call with
hundredths 0. -/
theorem c6_negative_nanos_clamped_witness :
    (runBytes (mkFrame 1 33
        [0, 0, 0, 0, 0, 0, 0, 0, 254, 255, 255, 255, 230, 7, 5, 11, 10, 30, 0, 7])
      initOla).rtcSetCalls =
      [{ hour := 10, minute := 30, seconds := 0, hundredths := 0, day := 11,
         month := 5, year := 22 }] := by
  have h := c6_negative_nanos_clamped
    [0, 0, 0, 0, 0, 0, 0, 0, 254, 255, 255, 255, 230, 7, 5, 11, 10, 30, 0, 7]
    initOla rfl rfl rfl (by norm_num) rfl (by decide) (by decide) (by decide)
  rw [h.1]
  decide

/-- C7: the TIMEUTC handler issues an RTC set only when `rtcSyncRequiredFlag`
and the frame's time-valid bit are both set; when it does, it clears
`rtcSyncRequiredFlag` (so the RTC is set at most once per flag-setting —
with the flag clear the handler is the identity); and the flag is set again
by the main loop on every latched RTC alarm and after every sleep cycle. -/
theorem c7_sync_required_gating :
    (∀ (ubx : List Nat) (rq rs : Bool) (calls : List RtcCall),
      (timeUtcUpd ubx rq rs calls).2.2 ≠ calls →
        rq = true ∧ Nat.land (ubx.getD 25 0) 4 = 4 ∧
          (timeUtcUpd ubx rq rs calls).1 = false) ∧
    (∀ (ubx : List Nat) (rs : Bool) (calls : List RtcCall),
      timeUtcUpd ubx false rs calls = (false, rs, calls)) ∧
    (∀ ls : LoopState, ls.alarmFlag = true →
      (loopAlarmBranch ls).rtcSyncRequiredFlag = true) ∧
    (∀ (ls : LoopState) (timeNow : Nat), 0 < ls.usSleepDuration →
      ls.measurementStartTime + ls.usLoggingDuration / 1000 < timeNow →
      (loopSleepBranch timeNow ls).rtcSyncRequiredFlag = true) := by
  refine ⟨?_, ?_, ?_, ?_⟩
  · intro ubx rq rs calls hne
    rw [timeUtcUpd] at hne ⊢
    split_ifs at hne ⊢ with hA hB hC hD
    · exact ⟨hC, hD.1, rfl⟩
    · simp at hne
    · simp at hne
    · simp at hne
    · simp at hne
  · intro ubx rs calls
    rw [timeUtcUpd]
    split_ifs with hA hB hC hD
    · exact absurd hC (by simp)
    · rfl
    · rfl
    · rfl
    · rfl
  · intro ls h
    rw [loopAlarmBranch, if_pos h]
  · intro ls timeNow hs hl
    rw [loopSleepBranch, if_pos ⟨hs, hl⟩]

/-- Witness for `c7_sync_required_gating`: a concrete emitting TIMEUTC
update clears the flag; a latched alarm and an elapsed logging window each
set it. -/
theorem c7_sync_required_gating_witness :
    (timeUtcUpd
        [0, 0, 1, 33, 0, 0, 0, 0, 0, 0, 0, 0, 0, 0, 0, 0, 0, 0, 0, 0, 0, 0, 0,
          0, 0, 4] true false []).1 = false ∧
      (loopAlarmBranch
        { alarmFlag := true, rtcSyncRequiredFlag := false,
          measurementStartTime := 0, usSleepDuration := 0,
          usLoggingDuration := 0 }).rtcSyncRequiredFlag = true ∧
      (loopSleepBranch 10
        { alarmFlag := false, rtcSyncRequiredFlag := false,
          measurementStartTime := 0, usSleepDuration := 5000,
          usLoggingDuration := 1000 }).rtcSyncRequiredFlag = true := by
  refine ⟨?_, ?_, ?_⟩
  · exact (c7_sync_required_gating.1
      [0, 0, 1, 33, 0, 0, 0, 0, 0, 0, 0, 0, 0, 0, 0, 0, 0, 0, 0, 0, 0, 0, 0, 0,
        0, 4] true false [] (by decide)).2.2
  · exact c7_sync_required_gating.2.2.1 _ rfl
  · exact c7_sync_required_gating.2.2.2 _ 10 (by decide) (by decide)

/-- C3 (behaviour of the code at the claim's failing input): starting from
`watchdogCounter = 0`, the first 10 watchdog interrupts each pet the dog and
increment the counter; the 11th interrupt takes the terminal branch — but
that branch stops the watchdog, turns the LED on and spins in `while (1);`:
the system halts permanently and performs zero system resets (the claim and
the code's own comment say one hard restart is performed). -/
theorem c3_eleventh_interrupt_halts_without_reset :
    (am_watchdog_isr^[10] initWdt).halted = false ∧
      (am_watchdog_isr^[10] initWdt).counter = 10 ∧
      (am_watchdog_isr^[10] initWdt).actions.count WdtAction.pet = 10 ∧
      (am_watchdog_isr^[11] initWdt).halted = true ∧
      (am_watchdog_isr^[11] initWdt).actions.count WdtAction.systemReset = 0 ∧
      (am_watchdog_isr^[11] initWdt).actions.count WdtAction.stopWdt = 1 ∧
      am_watchdog_isr^[12] initWdt = am_watchdog_isr^[11] initWdt := by
  decide

/-- C8: `setSleepAlarm` and `setLoggingAlarm` clear any latched alarm
interrupt before programming the new target (the pending bit is always
clear afterwards, even if it was latched before), re-arming is idempotent —
arming twice with the same RTC reading equals arming once — and when the
armed target time is then reached, exactly one alarm interrupt fires and is
latched. -/
theorem c8_alarm_rearm_clears_pending (now : RtcNow) (h : RtcHw)
    (cur : AlarmTarget) :
    (setSleepAlarm now h).pending = false ∧
      (setLoggingAlarm now h).pending = false ∧
      setSleepAlarm now (setSleepAlarm now h) = setSleepAlarm now h ∧
      setLoggingAlarm now (setLoggingAlarm now h) = setLoggingAlarm now h ∧
      (alarmMatch 5 cur (setSleepAlarm now h).target = true →
        (rtcReach cur (setSleepAlarm now (setSleepAlarm now h))).pending = true ∧
          (rtcReach cur (setSleepAlarm now (setSleepAlarm now h))).fired =
            h.fired + 1) := by
  refine ⟨rfl, rfl, rfl, rfl, ?_⟩
  intro hm
  rw [show setSleepAlarm now (setSleepAlarm now h) = setSleepAlarm now h from rfl]
  rw [rtcReach, if_pos (show alarmMatch (setSleepAlarm now h).mode cur
    (setSleepAlarm now h).target = true from hm)]
  exact ⟨rfl, rfl⟩

/-- Witness for `c8_alarm_rearm_clears_pending`: with a stale latched
interrupt, re-arming twice and reaching the target leaves exactly one fire
latched. -/
theorem c8_alarm_rearm_clears_pending_witness :
    (setSleepAlarm ⟨10, 15, 3, 11⟩
        ⟨true, ⟨0, 0, 0, 0, 0, 0⟩, 0, 0⟩).pending = false ∧
      (rtcReach ⟨23, 15, 0, 0, 9, 12⟩
        (setSleepAlarm ⟨10, 15, 3, 11⟩
          (setSleepAlarm ⟨10, 15, 3, 11⟩
            ⟨true, ⟨0, 0, 0, 0, 0, 0⟩, 0, 0⟩))).fired = 1 := by
  have h := c8_alarm_rearm_clears_pending ⟨10, 15, 3, 11⟩
    ⟨true, ⟨0, 0, 0, 0, 0, 0⟩, 0, 0⟩ ⟨23, 15, 0, 0, 9, 12⟩
  exact ⟨h.1, (h.2.2.2.2 (by decide)).2⟩

end GVMS
